import Mathlib

/-!
Verification of the proxy mode-server core (`mitmproxy/proxy/mode_servers.py`)
and the URL parser (`netlib/http/url.py`) of this repository, via a shallow
embedding in Lean.

Conventions of the embedding:
* Python machine values are modelled with `Nat`/`String`/`List`.
* Side effects (socket binds, socket close, logging, task spawning) are made
  explicit: fallible external calls become input parameters carrying their
  outcome (`ListenResult`, the close outcome of `stop`), and emitted effects
  become explicit values (`LogEntry`, `UdpEffect` traces).
* Raised Python exceptions become `Except` error results.
-/

namespace ModeServers

/-- A resolved socket address, modelling the `Address` tuples used by
`mode_servers.py` (`(host, port)` as returned by `socket.getsockname()`). -/
structure Address where
  host : String
  port : Nat
deriving DecidableEq, Repr

/-- An OSError as raised by the socket layer: `errno`, `strerror`-based
message (`str(e)` of the original exception), and `filename`. -/
structure OSErr where
  errno : Nat
  msg : String
  filename : Option String
deriving DecidableEq, Repr

/-- A Python exception value as stored in `last_exception`: either an
`OSError` or some other `Exception`, kept with its message. -/
inductive PyExc where
  | os (e : OSErr)
  | exc (msg : String)
deriving DecidableEq, Repr

/-- The value `errno.EADDRINUSE` (Linux value), as consulted at line 130 of
`mode_servers.py`. -/
def EADDRINUSE : Nat := 98

/-- A bound asyncio / UDP server as returned by `listen()`: we model it by
the socket names of its bound sockets (`self._server.sockets`, each mapped
through `getsockname()` at line 126). -/
structure BoundServer where
  sockets : List Address
deriving DecidableEq, Repr

/-- The outcome of the external bind call `await self.listen(host, port)`
inside `start()`: a bound server, an `OSError`, or some other exception
(the source handles the latter two in separate `except` clauses). -/
inductive ListenResult where
  | ok (srv : BoundServer)
  | osErr (e : OSErr)
  | exc (msg : String)
deriving DecidableEq, Repr

/-- The mutable state of an `AsyncioServerInstance`: the `_server` handle,
the cached `_listen_addrs`, and `last_exception`.  The source has no
explicit state enum; the `Running` state of the lifecycle corresponds to
`_server` being set (`is_running` at lines 116-118). -/
structure AsyncioState where
  _server : Option BoundServer
  _listen_addrs : List Address
  last_exception : Option PyExc
deriving DecidableEq, Repr

/-- A freshly constructed instance: no server bound, no addresses, no
exception (class defaults at lines 113-114 and `__init__` at line 74). -/
def initState : AsyncioState :=
  { _server := none, _listen_addrs := [], last_exception := none }

/-- The per-instance data `start()` reads besides the mutable state:
`self.log_desc`, `self.mode.full_spec`, `self.mode.custom_listen_host`,
`self.mode.custom_listen_port`, and the host/port resolved through
`self.mode.listen_host(...)` / `self.mode.listen_port(...)` (lines 122-123;
the resolution itself lives in the external `mode_specs`). -/
structure InstanceConfig where
  log_desc : String
  full_spec : String
  custom_listen_host : Option String
  custom_listen_port : Option Nat
  listen_host : String
  listen_port : Nat
deriving DecidableEq, Repr

/-- Errors raised by `start()` / `stop()`.  The source expresses lifecycle
misuse as `assert` statements (`assert self._server is None` at line 121,
`assert self._server is not None` at line 142); the spec's error taxonomy
(§7) names these `AlreadyRunning` and `NotRunning`, which we adopt as the
constructor names.  `innerAssert` is the `assert self.mode.custom_listen_host
is None` at line 131; `os` is the freshly built `OSError` raised at line 133;
`raised` re-raises an exception unchanged (line 136 and line 153). -/
inductive StartStopErr where
  | alreadyRunning
  | notRunning
  | innerAssert
  | os (e : OSErr)
  | raised (e : PyExc)
deriving DecidableEq, Repr

/-- The message built at line 129:
`f"{self.log_desc} failed to listen on {host or '*'}:{port} with {e}"`. -/
def failMessage (cfg : InstanceConfig) (e : OSErr) : String :=
  cfg.log_desc ++ " failed to listen on "
    ++ (if cfg.listen_host = "" then "*" else cfg.listen_host)
    ++ ":" ++ toString cfg.listen_port ++ " with " ++ e.msg

/-- The suggestion appended at line 132:
"\nTry specifying a different port by using --mode {full_spec}@{port + 1}."
(the mode spec is quoted with backticks in the source). -/
def portSuggestion (cfg : InstanceConfig) : String :=
  "\nTry specifying a different port by using `--mode " ++ cfg.full_spec
    ++ ("@" ++ toString (cfg.listen_port + 1)) ++ "`."

/-- Method `AsyncioServerInstance.start` (lines 120-139).  The outcome of the
bind is passed in as `res`; the function returns the post-state and the
raised exception, if any.  On a successful bind `_server` and
`_listen_addrs` are set and `last_exception` cleared; on an `OSError`
`last_exception` is set to the original error and a new `OSError` with the
rewritten message (plus the port suggestion when the address is in use and
no custom port was pinned) is raised; any other exception is recorded and
re-raised unchanged. -/
def AsyncioServerInstance.start (cfg : InstanceConfig) (s : AsyncioState)
    (res : ListenResult) : AsyncioState × Except StartStopErr Unit :=
  match s._server with
  | some _ => (s, .error .alreadyRunning)
  | none =>
    match res with
    | .ok srv =>
        ({ _server := some srv, _listen_addrs := srv.sockets,
           last_exception := none }, .ok ())
    | .osErr e =>
        let s' : AsyncioState := { s with last_exception := some (.os e) }
        if e.errno = EADDRINUSE ∧ cfg.custom_listen_port = none then
          if cfg.custom_listen_host = none then
            (s', .error (.os ⟨e.errno, failMessage cfg e ++ portSuggestion cfg,
                              e.filename⟩))
          else
            (s', .error .innerAssert)
        else
          (s', .error (.os ⟨e.errno, failMessage cfg e, e.filename⟩))
    | .exc m =>
        ({ s with last_exception := some (.exc m) },
         .error (.raised (.exc m)))

/-- Method `AsyncioServerInstance.stop` (lines 141-156).  `closeRes` is the
outcome of the external `server.close(); await server.wait_closed()` pair
(`none` means it completed cleanly).  `_server` and `_listen_addrs` are
cleared before the close is issued, so the cleared state is reached on
every path past the assert; a close failure is recorded in
`last_exception` and re-raised. -/
def AsyncioServerInstance.stop (s : AsyncioState) (closeRes : Option PyExc) :
    AsyncioState × Except StartStopErr Unit :=
  match s._server with
  | none => (s, .error .notRunning)
  | some _ =>
    let s' : AsyncioState :=
      { _server := none, _listen_addrs := [],
        last_exception := s.last_exception }
    match closeRes with
    | some e => ({ s' with last_exception := some e }, .error (.raised e))
    | none => ({ s' with last_exception := none }, .ok ())

/-- Property `AsyncioServerInstance.is_running` (lines 116-118):
`self._server is not None`. -/
def AsyncioServerInstance.is_running (s : AsyncioState) : Bool :=
  s._server.isSome

/-- Property `AsyncioServerInstance.listen_addrs` (lines 171-173). -/
def AsyncioServerInstance.listen_addrs (s : AsyncioState) : List Address :=
  s._listen_addrs

/-- One lifecycle call on an instance: a `start` with a given bind outcome,
or a `stop` with a given close outcome. -/
inductive AsyncioEvent where
  | startEv (res : ListenResult)
  | stopEv (closeRes : Option PyExc)
deriving DecidableEq, Repr

/-- Execute one lifecycle call. -/
def applyEvent (cfg : InstanceConfig) (s : AsyncioState) :
    AsyncioEvent → AsyncioState × Except StartStopErr Unit
  | .startEv res => AsyncioServerInstance.start cfg s res
  | .stopEv r => AsyncioServerInstance.stop s r

/-- State reached from a fresh instance after a sequence of lifecycle
calls (exceptions propagate to the caller; the state transitions are those
of `start`/`stop`). -/
def runEvents (cfg : InstanceConfig) (evs : List AsyncioEvent) : AsyncioState :=
  evs.foldl (fun s e => (applyEvent cfg s e).1) initState

/-- Environment guarantee on bind outcomes: `asyncio.start_server` /
`udp.start_server` either raise or return a server with at least one bound
socket, so a successful `ListenResult` carries a non-empty socket list. -/
def goodEvent : AsyncioEvent → Bool
  | .startEv (.ok srv) => !srv.sockets.isEmpty
  | _ => true

/-- The lifecycle invariant of an instance state: `_listen_addrs` is
non-empty exactly when a server is bound. -/
def stateInv (s : AsyncioState) : Prop :=
  s._listen_addrs = [] ↔ s._server = none

/-- A Python `bytes` value: a list of byte values (each 0-255). -/
abbrev Bytes := List Nat

/-- One component of a Python connection-id tuple as built in
`mode_servers.py`: a string tag, an int, a nested tuple of ints (as
returned by `struct.unpack_from`), or an address.  Python tuples are
modelled as lists of components, so `("udp", 0x1234, peer, local)` and
`("udp", (0x1234,), peer, local)` are distinct values, exactly as in
Python. -/
inductive IdComponent where
  | str (s : String)
  | int (n : Nat)
  | intTuple (ns : List Nat)
  | addr (a : Address)
deriving DecidableEq, Repr

/-- A demultiplexing key (`connection_id: tuple`). -/
abbrev ConnectionId := List IdComponent

/-- A log record with its level, as emitted through `ctx.log`. -/
structure LogEntry where
  level : String
  msg : String
deriving DecidableEq, Repr

/-- Modelled from the spec: `mitmproxy.utils.human.format_address` is an
external helper (its module is not under `src/`); it renders a socket
address for humans.  Only the fact that a log line is emitted matters to
the claims, not its exact text. -/
def format_address (a : Address) : String :=
  a.host ++ ":" ++ toString a.port

/-- The call `struct.unpack_from("!H", data, 0)`: reads the first two bytes as one
big-endian unsigned 16-bit integer and returns a ONE-ELEMENT TUPLE holding
it (Python's `struct.unpack*` always returns a tuple); raises
`struct.error` (here: `none`) when fewer than two bytes are available. -/
def unpack_from_beH (data : Bytes) : Option (List Nat) :=
  match data with
  | b0 :: b1 :: _ => some [b0 * 256 + b1]
  | _ => none

/-- Method `DnsInstance.make_connection_id` (lines 321-335), called with the three
arguments of its signature.  Returns the computed connection id (or `none`
for a malformed datagram) together with the log records emitted.  Note
`dns_id` is the tuple returned by `struct.unpack_from`, and that tuple —
not the bare integer — is placed in the connection id. -/
def DnsInstance.make_connection_id (data : Bytes)
    (remote_addr local_addr : Address) : Option ConnectionId × List LogEntry :=
  match unpack_from_beH data with
  | none =>
      (none,
       [⟨"info", "Invalid DNS datagram received from "
                   ++ format_address remote_addr ++ "."⟩])
  | some dns_id =>
      (some [.str "udp", .intTuple dns_id, .addr remote_addr,
             .addr local_addr], [])

/-- Method `UdpInstance.make_connection_id` (lines 354-360): plain UDP keys by
`("udp", remote_addr, local_addr)` only and never drops. -/
def UdpInstance.make_connection_id (data : Bytes)
    (remote_addr local_addr : Address) : Option ConnectionId × List LogEntry :=
  (some [.str "udp", .addr remote_addr, .addr local_addr], [])

/-- The mode-specific top layers installed by the concrete instances
(lines 214-249 and 317-319). -/
inductive LayerKind where
  | dnsLayer
  | httpProxy
  | httpUpstreamProxy
  | transparentProxy
  | reverseProxy
  | socks5Proxy
deriving DecidableEq, Repr

/-- The slice of a `ProxyConnectionHandler` the datagram path manipulates:
the client transport protocol, the watchdog timeout, the server-side
address and transport protocol on the handler's context, the installed
top layer, and the queue of datagrams fed to its `DatagramReader`
(in arrival order). -/
structure HandlerState where
  client_transport_protocol : String
  connection_timeout : Nat
  server_address : Option Address
  server_transport_protocol : String
  layer : Option LayerKind
  reader : List (Bytes × Address)
deriving DecidableEq, Repr

/-- A freshly constructed `ProxyConnectionHandler` (line 288), with the
defaults of the external `LiveConnectionHandler` base: stream transport,
default watchdog timeout (`CONNECTION_TIMEOUT`, 600 s in the external
base — the exact value is immaterial to the claims), no server address,
no top layer installed yet, empty reader queue. -/
def freshHandler : HandlerState :=
  { client_transport_protocol := "tcp", connection_timeout := 600,
    server_address := none, server_transport_protocol := "tcp",
    layer := none, reader := [] }

/-- The mapping `manager.connections`: the mapping `ConnectionId → handler`, modelled
as an association list with unique keys. -/
abbrev Conns := List (ConnectionId × HandlerState)

/-- Mapping lookup (`connection_id in self.manager.connections` /
`self.manager.connections[connection_id]`). -/
def lookupConn (conns : Conns) (cid : ConnectionId) : Option HandlerState :=
  match conns with
  | [] => none
  | (k, h) :: rest => if k = cid then some h else lookupConn rest cid

/-- Update the handler stored under a key, if present.  Used to model that
`reader.feed_data` mutates the very handler object aliased in the
mapping. -/
def updateConn (conns : Conns) (cid : ConnectionId)
    (f : HandlerState → HandlerState) : Conns :=
  match conns with
  | [] => []
  | (k, h) :: rest =>
      if k = cid then (k, f h) :: rest else (k, h) :: updateConn rest cid f

/-- The observable effects of `handle_udp_datagram`, in program order. -/
inductive UdpEffect where
  | log (entry : LogEntry)
  | insertConn (cid : ConnectionId)
  | spawnTask (cid : ConnectionId)
  | feed (cid : ConnectionId) (data : Bytes) (peer : Address)
deriving DecidableEq, Repr

/-- The mode-specific pieces `UdpServerInstance.handle_udp_datagram` reads
from `self`: the classifier, the consulted `self.is_transparent` (already
evaluated for truth, see the `PyAttr` model below), and `make_top_layer`
(which receives the handler's context; we pass the context's current
server address and get back the layer and the possibly rewritten server
address). -/
structure UdpImpl where
  make_connection_id : Bytes → Address → Address → Option ConnectionId × List LogEntry
  is_transparent : Bool
  make_top_layer : Option Address → LayerKind × Option Address

/-- The body of `handle_udp_datagram` after the connection id has been
computed (lines 283-304): on a miss, construct a handler, pre-insert it
into `manager.connections`, spawn the connection task, then feed the
datagram to the (aliased) reader; on a hit, fetch the existing handler and
feed its reader. -/
def handle_udp_datagram_classified (impl : UdpImpl) (conns : Conns)
    (classified : Option ConnectionId × List LogEntry)
    (data : Bytes) (remote_addr local_addr : Address) :
    Conns × List UdpEffect :=
  match classified with
  | (none, logs) => (conns, logs.map .log)
  | (some connection_id, logs) =>
    match lookupConn conns connection_id with
    | none =>
        let handler0 := freshHandler
        let handler1 :=
          { handler0 with client_transport_protocol := "udp" }
        let handler2 := { handler1 with connection_timeout := 20 }
        let handler3 :=
          if impl.is_transparent then
            { handler2 with server_address := some local_addr }
          else handler2
        let handler4 :=
          { handler3 with server_transport_protocol := "udp" }
        let made := impl.make_top_layer handler4.server_address
        let handler5 :=
          { handler4 with layer := some made.1, server_address := made.2 }
        let conns1 := (connection_id, handler5) :: conns
        let conns2 := updateConn conns1 connection_id
          (fun h => { h with reader := h.reader ++ [(data, remote_addr)] })
        (conns2,
         logs.map .log
           ++ [.insertConn connection_id, .spawnTask connection_id,
               .feed connection_id data remote_addr])
    | some _ =>
        (updateConn conns connection_id
           (fun h => { h with reader := h.reader ++ [(data, remote_addr)] }),
         logs.map .log ++ [.feed connection_id data remote_addr])

/-- Method `UdpServerInstance.handle_udp_datagram` (lines 275-304) with ambiguity
(c) of the spec resolved: the source's call at line 282 passes `transport`
although `make_connection_id`'s signature omits it (see
`handle_udp_datagram_as_written` below for the call exactly as written);
following the spec, `transport` is dropped from the classifier call.  The
rest of the body is translated from the source unchanged. -/
def UdpServerInstance.handle_udp_datagram (impl : UdpImpl) (conns : Conns)
    (data : Bytes) (remote_addr local_addr : Address) :
    Conns × List UdpEffect :=
  handle_udp_datagram_classified impl conns
    (impl.make_connection_id data remote_addr local_addr)
    data remote_addr local_addr

/-- The classifier call exactly as written at line 282 of the source:
`self.make_connection_id(transport, data, remote_addr, local_addr)`.
The method's signature (lines 259-265 and 321-326) takes three arguments
besides `self`, so this call supplies one positional argument too many and
Python raises `TypeError` before the classifier body ever runs. -/
def make_connection_id_call_as_written (transport : Nat) (data : Bytes)
    (remote_addr local_addr : Address) :
    Except String (Option ConnectionId × List LogEntry) :=
  .error "TypeError: make_connection_id() takes 4 positional arguments but 5 were given"

/-- Method `handle_udp_datagram` exactly as written in the source: the classifier
call raises `TypeError`, which propagates to the caller of
`handle_udp_datagram` for every datagram. -/
def UdpServerInstance.handle_udp_datagram_as_written (impl : UdpImpl)
    (transport : Nat) (conns : Conns) (data : Bytes)
    (remote_addr local_addr : Address) :
    Except String (Conns × List UdpEffect) :=
  match make_connection_id_call_as_written transport data remote_addr local_addr with
  | .error e => .error e
  | .ok classified =>
      .ok (handle_udp_datagram_classified impl conns classified
             data remote_addr local_addr)

/-- A Python attribute access `self.name` on an instance whose class
declares `name`: a `@property` yields the computed value; a plain method
yields the bound-method object. -/
inductive PyAttr (α : Type) where
  | value (a : α)
  | boundMethod
deriving DecidableEq, Repr

/-- Python truthiness of an accessed attribute when it is used in a
boolean context: a computed `bool` stands for itself; a bound-method
object is always truthy. -/
def PyAttr.truthy : PyAttr Bool → Bool
  | .value b => b
  | .boundMethod => true

/-- Property `AsyncioServerInstance.is_transparent` (lines 167-169): a `@property`
returning `False`. -/
def AsyncioServerInstance.is_transparent_attr : PyAttr Bool :=
  .value false

/-- Method `DnsInstance.is_transparent` (lines 314-315) is declared as a plain
method (no `@property`), so reading `self.is_transparent` — as
`UdpServerInstance.listen` (line 272) and `handle_udp_datagram`
(line 293) do — yields the bound method, not the boolean. -/
def DnsInstance.is_transparent_attr : PyAttr Bool :=
  .boundMethod

/-- The body of `DnsInstance.is_transparent` (line 315), i.e. the value the
method returns when actually called: `self.mode.data == "transparent"`. -/
def DnsInstance.is_transparent_body (mode_data : String) : Bool :=
  mode_data = "transparent"

/-- The boolean the listen and datagram paths actually act on for a
`DnsInstance`: the truthiness of the accessed attribute. -/
def DnsInstance.is_transparent_consulted : Bool :=
  DnsInstance.is_transparent_attr.truthy

/-- Method `UdpInstance.is_transparent` (lines 345-346) is likewise a plain
method, so the attribute read by the base class yields the bound
method. -/
def UdpInstance.is_transparent_attr : PyAttr Bool :=
  .boundMethod

/-- The body of `UdpInstance.is_transparent` (line 346):
`self.inner_server.is_transparent`. -/
def UdpInstance.is_transparent_body (inner_is_transparent : Bool) : Bool :=
  inner_is_transparent

/-- Attribute `DnsInstance.log_desc` (line 312): a plain class-level string
attribute, read as a value. -/
def DnsInstance.log_desc_attr : PyAttr String :=
  .value "DNS server"

/-- Method `UdpInstance.log_desc` (lines 348-349) is declared as a method, so the
base class's f-strings read the bound method, not the description
string. -/
def UdpInstance.log_desc_attr : PyAttr String :=
  .boundMethod

/-- Method `DnsInstance.make_top_layer` (lines 317-319): sets
`context.server.address = (self.mode.data or "resolve-local", 53)` and
installs a `DNSLayer`. -/
def DnsInstance.make_top_layer (mode_data : String) :
    Option Address → LayerKind × Option Address :=
  fun _ =>
    (.dnsLayer,
     some ⟨if mode_data = "" then "resolve-local" else mode_data, 53⟩)

/-- The `UdpImpl` of a `DnsInstance` with the given `mode.data`: its
classifier, the truthiness of its `is_transparent` attribute as consulted
by the base class, and its top-layer factory. -/
def dnsImpl (mode_data : String) : UdpImpl :=
  { make_connection_id := DnsInstance.make_connection_id
    is_transparent := DnsInstance.is_transparent_consulted
    make_top_layer := DnsInstance.make_top_layer mode_data }

/-- The typed proxy modes of `mode_specs` that `ServerInstance.make`
dispatches on (`mode.type` is the registry key). -/
inductive ProxyMode where
  | regular
  | upstream (data : String)
  | transparentMode
  | reverse (data : String)
  | socks5
  | dns (data : String)
  | udpMode (inner : ProxyMode)
deriving DecidableEq, Repr

/-- The concrete `ServerInstance` subclasses registered by
`__init_subclass__` (lines 76-82), one per mode type. -/
inductive InstanceKind where
  | regularInstance
  | upstreamInstance
  | transparentInstance
  | reverseInstance
  | socks5Instance
  | dnsInstance
  | udpInstance
deriving DecidableEq, Repr

/-- Mapping `mode.type` → registered subclass (the `ServerInstance.__modes`
registry populated by `__init_subclass__`). -/
def registryKind : ProxyMode → InstanceKind
  | .regular => .regularInstance
  | .upstream _ => .upstreamInstance
  | .transparentMode => .transparentInstance
  | .reverse _ => .reverseInstance
  | .socks5 => .socks5Instance
  | .dns _ => .dnsInstance
  | .udpMode _ => .udpInstance

/-- An instance as constructed by `ServerInstance.make`: the selected
subclass, the mode it was given, and the manager it is bound to.  The
manager is identified by an opaque token. -/
structure MadeInstance where
  kind : InstanceKind
  mode : ProxyMode
  manager : Nat
deriving DecidableEq, Repr

/-- Method `ServerInstance.make(mode, manager)` (lines 84-91): registry lookup on
`mode.type`, then construction with `(mode, manager)`. -/
def ServerInstance.make (mode : ProxyMode) (manager : Nat) : MadeInstance :=
  { kind := registryKind mode, mode := mode, manager := manager }

/-- The call exactly as written at line 343 of the source:
`ServerInstance.make(mode.inner_mode)`.  `make` requires two positional
arguments `(mode, manager)`; supplying only the mode raises `TypeError`,
so the construction of the inner server never completes. -/
def ServerInstance.make_call_missing_manager (mode : ProxyMode) :
    Except String MadeInstance :=
  .error "TypeError: make() missing 1 required positional argument: manager"

/-- The state a completed `UdpInstance.__init__` would leave behind:
`self.mode` (note `super().__init__` is passed `mode.inner_mode`, so the
stored mode is the inner one), `self.manager`, and `self.inner_server`. -/
structure UdpInstanceState where
  mode : ProxyMode
  manager : Nat
  inner_server : MadeInstance
deriving DecidableEq, Repr

/-- Method `UdpInstance.__init__` (lines 341-343) exactly as written: the inner
server is built by `ServerInstance.make(mode.inner_mode)` with the manager
argument missing, so the constructor raises `TypeError` and no
`UdpInstance` is ever produced. -/
def UdpInstance.init_as_written (inner_mode : ProxyMode) (manager : Nat) :
    Except String UdpInstanceState :=
  match ServerInstance.make_call_missing_manager inner_mode with
  | .error e => .error e
  | .ok inner =>
      .ok { mode := inner_mode, manager := manager, inner_server := inner }

/-- Modelled from the spec: `UdpInstance.__init__` with ambiguity (a) of
the spec resolved — the same manager is threaded through to
`ServerInstance.make` for the inner mode. -/
def UdpInstance.init_fixed (inner_mode : ProxyMode) (manager : Nat) :
    Except String UdpInstanceState :=
  .ok { mode := inner_mode, manager := manager,
        inner_server := ServerInstance.make inner_mode manager }

/-- Method `UdpInstance.make_top_layer` (lines 351-352): pure delegation to
`self.inner_server.make_top_layer(context)`. -/
def UdpInstance.make_top_layer
    (inner_make_top_layer : Option Address → LayerKind × Option Address) :
    Option Address → LayerKind × Option Address :=
  fun context_server_address => inner_make_top_layer context_server_address

/-- The kind of socket a `listen` implementation binds. -/
inductive ServerSocketKind where
  | tcpSocket
  | udpSocket
deriving DecidableEq, Repr

/-- Method `TcpServerInstance.listen` (lines 206-211) binds a TCP server via
`asyncio.start_server`. -/
def TcpServerInstance.listen_socket_kind : ServerSocketKind :=
  .tcpSocket

/-- Method `UdpServerInstance.listen` (lines 267-273) — inherited unchanged by
`UdpInstance` — binds a UDP server via `udp.start_server`; the inner
server's `listen` is never invoked. -/
def UdpServerInstance.listen_socket_kind : ServerSocketKind :=
  .udpSocket

end ModeServers

namespace Url

/-- A Python `bytes` value: a list of byte values (each 0-255). -/
abbrev Bytes := List Nat

/-- The bytestring `b"https"`. -/
def httpsBytes : Bytes := [104, 116, 116, 112, 115]

/-- The fields of `urllib.parse.urlparse(url)` that `netlib.http.url.parse`
reads (the parser itself is an external stdlib collaborator): the scheme,
the hostname (`none` when the URL has no host; may also be the empty
bytestring, which Python treats as falsy), the numeric port (`none` when
the URL carries no explicit port), and the path/params/query/fragment
components.  All components are bytes, as on the `isinstance(url, bytes)`
branch of `parse` (on the text branch the parse result is first encoded to
bytes, line 52). -/
structure UrlParseResult where
  scheme : Bytes
  hostname : Option Bytes
  port : Option Nat
  path : Bytes
  params : Bytes
  query : Bytes
  fragment : Bytes
deriving DecidableEq, Repr

/-- The call `urllib.parse.urlunparse((b"", b"", path, params, query, fragment))`
(external stdlib call, line 58-60), per its documented behaviour with
empty scheme and netloc: append `;params`, double the leading `//` marker
when the path starts with two slashes, then append `?query` and
`#fragment` when non-empty.  Byte 47 is `/`, 59 is `;`, 63 is `?`,
35 is `#`. -/
def urlunparse_relative (path params query fragment : Bytes) : Bytes :=
  let u1 := if params = [] then path else path ++ 59 :: params
  let u2 := if u1.take 2 = [47, 47] then 47 :: 47 :: u1 else u1
  let u3 := if query = [] then u2 else u2 ++ 63 :: query
  if fragment = [] then u3 else u3 ++ 35 :: fragment

/-- Modelled from the spec: `netlib.utils.is_valid_host` (its module is
not under `src/`); per `parse`'s docstring the host must be "a valid
IDNA-encoded hostname with no null-bytes" — non-empty and containing no
zero byte. -/
def is_valid_host (host : Bytes) : Bool :=
  !host.isEmpty && !host.contains 0

/-- Modelled from the spec: `netlib.utils.is_valid_port` (its module is
not under `src/`); per `parse`'s docstring the "port is an integer
0-65535". -/
def is_valid_port (port : Nat) : Bool :=
  decide (port ≤ 65535)

/-- Function `netlib.http.url.parse` (lines 23-69), on the bytes branch: reject a
missing (or empty, hence falsy) hostname; default the port to 443 for
`https` and 80 otherwise when `parsed.port` is falsy (absent — or zero,
which is equally falsy); reassemble the path and prepend `/` when absent;
then validate host and port, raising `ValueError` on failure.  Returns
`(scheme, host, port, full_path)`. -/
def parse (p : UrlParseResult) : Except String (Bytes × Bytes × Nat × Bytes) :=
  match p.hostname with
  | none => .error "No hostname given"
  | some host =>
    if host = [] then .error "No hostname given"
    else
      let port0 := p.port.getD 0
      let port :=
        if port0 = 0 then (if p.scheme = httpsBytes then 443 else 80)
        else port0
      let raw := urlunparse_relative p.path p.params p.query p.fragment
      let full_path := if raw.take 1 = [47] then raw else 47 :: raw
      if ¬ is_valid_host host then .error "Invalid Host"
      else if ¬ is_valid_port port then .error "Invalid Port"
      else .ok (p.scheme, host, port, full_path)

end Url

/-! ## Theorems -/

namespace ModeServers

theorem stateInv_init : stateInv initState := by
  simp [stateInv, initState]

theorem stateInv_step (cfg : InstanceConfig) (s : AsyncioState)
    (e : AsyncioEvent) (hg : goodEvent e = true) (h : stateInv s) :
    stateInv (applyEvent cfg s e).1 := by
  cases e with
  | startEv res =>
    cases hs : s._server with
    | some srv =>
      simpa [applyEvent, AsyncioServerInstance.start, hs] using h
    | none =>
      cases res with
      | ok srv =>
        simp only [goodEvent, Bool.not_eq_true', List.isEmpty_eq_false] at hg
        simp [applyEvent, AsyncioServerInstance.start, hs, stateInv, hg]
      | osErr e =>
        simp only [applyEvent, AsyncioServerInstance.start, hs]
        split
        · split
          · simpa [stateInv, hs] using h
          · simpa [stateInv, hs] using h
        · simpa [stateInv, hs] using h
      | exc m =>
        simpa [applyEvent, AsyncioServerInstance.start, hs, stateInv] using h
  | stopEv r =>
    cases hs : s._server with
    | none =>
      simpa [applyEvent, AsyncioServerInstance.stop, hs] using h
    | some srv =>
      cases r with
      | some e => simp [applyEvent, AsyncioServerInstance.stop, hs, stateInv]
      | none => simp [applyEvent, AsyncioServerInstance.stop, hs, stateInv]

theorem stateInv_run (cfg : InstanceConfig) (evs : List AsyncioEvent)
    (h : ∀ e ∈ evs, goodEvent e = true) : stateInv (runEvents cfg evs) := by
  suffices H : ∀ (l : List AsyncioEvent) (s : AsyncioState),
      (∀ e ∈ l, goodEvent e = true) → stateInv s →
      stateInv (l.foldl (fun s e => (applyEvent cfg s e).1) s) by
    exact H evs initState h stateInv_init
  intro l
  induction l with
  | nil => intro s _ hs; simpa using hs
  | cons e l ih =>
    intro s hl hs
    simp only [List.foldl_cons]
    exact ih _ (fun x hx => hl x (List.mem_cons_of_mem e hx))
      (stateInv_step cfg s e (hl e (List.mem_cons_self e l)) hs)




instance {e a : Type} [DecidableEq e] [DecidableEq a] :
    DecidableEq (Except e a) := fun x y =>
  match x, y with
  | .ok u, .ok v =>
      if h : u = v then isTrue (by rw [h])
      else isFalse (fun hh => by cases hh; exact h rfl)
  | .error u, .error v =>
      if h : u = v then isTrue (by rw [h])
      else isFalse (fun hh => by cases hh; exact h rfl)
  | .ok _, .error _ => isFalse (fun hh => by cases hh)
  | .error _, .ok _ => isFalse (fun hh => by cases hh)

theorem not_running_server_none (s : AsyncioState)
    (h : AsyncioServerInstance.is_running s = false) : s._server = none := by
  unfold AsyncioServerInstance.is_running at h
  cases hs : s._server with
  | none => rfl
  | some srv => rw [hs] at h; simp at h


theorem start_already_running (cfg : InstanceConfig) (s : AsyncioState)
    (res : ListenResult) (srv : BoundServer) (hs : s._server = some srv) :
    AsyncioServerInstance.start cfg s res = (s, .error .alreadyRunning) := by
  unfold AsyncioServerInstance.start
  rw [hs]

theorem start_ok (cfg : InstanceConfig) (s : AsyncioState) (srv : BoundServer)
    (hs : s._server = none) :
    AsyncioServerInstance.start cfg s (.ok srv)
      = ({ _server := some srv, _listen_addrs := srv.sockets,
           last_exception := none }, .ok ()) := by
  unfold AsyncioServerInstance.start
  rw [hs]

theorem start_osErr (cfg : InstanceConfig) (s : AsyncioState) (e : OSErr)
    (hs : s._server = none) :
    (AsyncioServerInstance.start cfg s (.osErr e)).1
      = { s with last_exception := some (.os e) }
    ∧ ∃ err, (AsyncioServerInstance.start cfg s (.osErr e)).2
      = .error err := by
  unfold AsyncioServerInstance.start
  rw [hs]
  dsimp only
  split
  · split
    · exact ⟨rfl, _, rfl⟩
    · exact ⟨rfl, _, rfl⟩
  · exact ⟨rfl, _, rfl⟩

theorem start_osErr_suggest (cfg : InstanceConfig) (s : AsyncioState)
    (e : OSErr) (hs : s._server = none) (he : e.errno = EADDRINUSE)
    (hp : cfg.custom_listen_port = none) (hh : cfg.custom_listen_host = none) :
    AsyncioServerInstance.start cfg s (.osErr e)
      = ({ s with last_exception := some (.os e) },
         .error (.os ⟨e.errno, failMessage cfg e ++ portSuggestion cfg,
                      e.filename⟩)) := by
  unfold AsyncioServerInstance.start
  rw [hs]
  dsimp only
  rw [if_pos ⟨he, hp⟩, if_pos hh]

theorem start_osErr_plain (cfg : InstanceConfig) (s : AsyncioState)
    (e : OSErr) (hs : s._server = none)
    (h : ¬(e.errno = EADDRINUSE ∧ cfg.custom_listen_port = none)) :
    AsyncioServerInstance.start cfg s (.osErr e)
      = ({ s with last_exception := some (.os e) },
         .error (.os ⟨e.errno, failMessage cfg e, e.filename⟩)) := by
  unfold AsyncioServerInstance.start
  rw [hs]
  dsimp only
  rw [if_neg h]

theorem start_exc (cfg : InstanceConfig) (s : AsyncioState) (m : String)
    (hs : s._server = none) :
    AsyncioServerInstance.start cfg s (.exc m)
      = ({ s with last_exception := some (.exc m) },
         .error (.raised (.exc m))) := by
  unfold AsyncioServerInstance.start
  rw [hs]

theorem stop_not_running (s : AsyncioState) (r : Option PyExc)
    (hs : s._server = none) :
    AsyncioServerInstance.stop s r = (s, .error .notRunning) := by
  unfold AsyncioServerInstance.stop
  rw [hs]

theorem stop_clean (s : AsyncioState) (srv : BoundServer)
    (hs : s._server = some srv) :
    AsyncioServerInstance.stop s none = (⟨none, [], none⟩, .ok ()) := by
  unfold AsyncioServerInstance.stop
  rw [hs]

theorem stop_close_error (s : AsyncioState) (srv : BoundServer) (e : PyExc)
    (hs : s._server = some srv) :
    AsyncioServerInstance.stop s (some e)
      = (⟨none, [], some e⟩, .error (.raised e)) := by
  unfold AsyncioServerInstance.stop
  rw [hs]


/-- C1: for every `ServerInstance`, `listen_addrs` is empty whenever the
instance is not in the Running state and non-empty whenever it is Running
(over every reachable state, given that a successful bind yields at least
one socket), `is_running` is true exactly when the state is Running (i.e.
a server is bound), after a successful `start()` `listen_addrs` is
non-empty and `is_running` is true, and after `stop()` on a running
instance `listen_addrs` is empty and `is_running` is false. -/
theorem C1_listen_addrs_iff_running :
    (∀ (cfg : InstanceConfig) (evs : List AsyncioEvent),
       (∀ e ∈ evs, goodEvent e = true) →
       (AsyncioServerInstance.listen_addrs (runEvents cfg evs) ≠ [] ↔
          AsyncioServerInstance.is_running (runEvents cfg evs) = true)
       ∧ (AsyncioServerInstance.is_running (runEvents cfg evs) = true ↔
          (runEvents cfg evs)._server ≠ none))
    ∧ (∀ (cfg : InstanceConfig) (s : AsyncioState) (res : ListenResult),
       goodEvent (.startEv res) = true →
       (AsyncioServerInstance.start cfg s res).2 = .ok () →
       AsyncioServerInstance.is_running (AsyncioServerInstance.start cfg s res).1 = true
       ∧ AsyncioServerInstance.listen_addrs
           (AsyncioServerInstance.start cfg s res).1 ≠ [])
    ∧ (∀ (s : AsyncioState) (r : Option PyExc),
       AsyncioServerInstance.is_running s = true →
       AsyncioServerInstance.is_running (AsyncioServerInstance.stop s r).1 = false
       ∧ AsyncioServerInstance.listen_addrs (AsyncioServerInstance.stop s r).1 = []) := by
  refine ⟨?_, ?_, ?_⟩
  · intro cfg evs h
    have hinv := stateInv_run cfg evs h
    unfold stateInv at hinv
    unfold AsyncioServerInstance.listen_addrs AsyncioServerInstance.is_running
    rw [Option.isSome_iff_ne_none]
    exact ⟨not_congr hinv, Iff.rfl⟩
  · intro cfg s res hg hok
    cases hs : s._server with
    | some srv =>
      rw [start_already_running cfg s res srv hs] at hok
      exact absurd hok (by simp)
    | none =>
      cases res with
      | ok srv =>
        simp only [goodEvent, Bool.not_eq_true', List.isEmpty_eq_false] at hg
        rw [start_ok cfg s srv hs]
        simp [AsyncioServerInstance.is_running, AsyncioServerInstance.listen_addrs, hg]
      | osErr e =>
        obtain ⟨-, err, herr⟩ := start_osErr cfg s e hs
        rw [herr] at hok
        exact absurd hok (by simp)
      | exc m =>
        rw [start_exc cfg s m hs] at hok
        exact absurd hok (by simp)
  · intro s r hrun
    unfold AsyncioServerInstance.is_running at hrun
    obtain ⟨srv, hs⟩ := Option.isSome_iff_exists.mp hrun
    cases r with
    | none =>
      rw [stop_clean s srv hs]
      simp [AsyncioServerInstance.is_running, AsyncioServerInstance.listen_addrs]
    | some e =>
      rw [stop_close_error s srv e hs]
      simp [AsyncioServerInstance.is_running, AsyncioServerInstance.listen_addrs]

/-- Witness for C1 at a concrete trace: one successful bind of
127.0.0.1:8080. -/
theorem C1_listen_addrs_iff_running_witness :
    (∀ e ∈ [AsyncioEvent.startEv (.ok ⟨[⟨"127.0.0.1", 8080⟩]⟩)],
       goodEvent e = true)
    ∧ (AsyncioServerInstance.listen_addrs
         (runEvents ⟨"HTTP(S) proxy", "regular", none, none, "", 8080⟩
           [AsyncioEvent.startEv (.ok ⟨[⟨"127.0.0.1", 8080⟩]⟩)]) ≠ [] ↔
       AsyncioServerInstance.is_running
         (runEvents ⟨"HTTP(S) proxy", "regular", none, none, "", 8080⟩
           [AsyncioEvent.startEv (.ok ⟨[⟨"127.0.0.1", 8080⟩]⟩)]) = true)
    ∧ AsyncioServerInstance.is_running
        (AsyncioServerInstance.stop
          ⟨some ⟨[⟨"127.0.0.1", 8080⟩]⟩, [⟨"127.0.0.1", 8080⟩], none⟩ none).1
        = false :=
  ⟨by decide,
   (C1_listen_addrs_iff_running.1 _ _ (by decide)).1,
   (C1_listen_addrs_iff_running.2.2
     ⟨some ⟨[⟨"127.0.0.1", 8080⟩]⟩, [⟨"127.0.0.1", 8080⟩], none⟩ none
     (by decide)).1⟩


/-- C2: `start()` on an instance that is already Running fails with
AlreadyRunning (leaving the state untouched); `stop()` on an instance that
is not Running fails with NotRunning (leaving the state untouched); and
after a `start()` that failed the instance is still not running, so a
further `start()` is permitted and succeeds whenever the bind does. -/
theorem C2_lifecycle_misuse :
    (∀ (cfg : InstanceConfig) (s : AsyncioState) (res : ListenResult),
       AsyncioServerInstance.is_running s = true →
       (AsyncioServerInstance.start cfg s res).2 = .error .alreadyRunning
       ∧ (AsyncioServerInstance.start cfg s res).1 = s)
    ∧ (∀ (s : AsyncioState) (r : Option PyExc),
       AsyncioServerInstance.is_running s = false →
       (AsyncioServerInstance.stop s r).2 = .error .notRunning
       ∧ (AsyncioServerInstance.stop s r).1 = s)
    ∧ (∀ (cfg : InstanceConfig) (s : AsyncioState) (res : ListenResult),
       AsyncioServerInstance.is_running s = false →
       (AsyncioServerInstance.start cfg s res).2 ≠ .ok () →
       AsyncioServerInstance.is_running
         (AsyncioServerInstance.start cfg s res).1 = false
       ∧ (∀ (cfg2 : InstanceConfig) (srv : BoundServer),
            (AsyncioServerInstance.start cfg2
              (AsyncioServerInstance.start cfg s res).1 (.ok srv)).2 = .ok ()
            ∧ AsyncioServerInstance.is_running
                (AsyncioServerInstance.start cfg2
                  (AsyncioServerInstance.start cfg s res).1 (.ok srv)).1
                = true)) := by
  refine ⟨?_, ?_, ?_⟩
  · intro cfg s res hrun
    obtain ⟨srv, hs⟩ :=
      Option.isSome_iff_exists.mp (by simpa [AsyncioServerInstance.is_running] using hrun)
    rw [start_already_running cfg s res srv hs]
    exact ⟨rfl, rfl⟩
  · intro s r hrun
    have hs : s._server = none := not_running_server_none s hrun
    rw [stop_not_running s r hs]
    exact ⟨rfl, rfl⟩
  · intro cfg s res hrun hfail
    have hs : s._server = none := not_running_server_none s hrun
    have hpost : (AsyncioServerInstance.start cfg s res).1._server = none := by
      cases res with
      | ok srv => exact absurd (by rw [start_ok cfg s srv hs]) hfail
      | osErr e =>
        obtain ⟨h1, -⟩ := start_osErr cfg s e hs
        rw [h1]
        exact hs
      | exc m =>
        rw [start_exc cfg s m hs]
        exact hs
    refine ⟨by simp [AsyncioServerInstance.is_running, hpost], ?_⟩
    intro cfg2 srv
    rw [start_ok cfg2 _ srv hpost]
    exact ⟨rfl, by simp [AsyncioServerInstance.is_running]⟩

/-- Witness for C2: a running instance rejects `start()`, a fresh instance
rejects `stop()`, and a fresh instance whose bind hit EADDRINUSE can be
started again successfully. -/
theorem C2_lifecycle_misuse_witness :
    (AsyncioServerInstance.start
       ⟨"HTTP(S) proxy", "regular", none, none, "", 8080⟩
       ⟨some ⟨[⟨"127.0.0.1", 8080⟩]⟩, [⟨"127.0.0.1", 8080⟩], none⟩
       (.ok ⟨[⟨"127.0.0.1", 8081⟩]⟩)).2 = .error .alreadyRunning
    ∧ (AsyncioServerInstance.stop initState none).2 = .error .notRunning
    ∧ (AsyncioServerInstance.start
         ⟨"HTTP(S) proxy", "regular", none, none, "", 8081⟩
         (AsyncioServerInstance.start
           ⟨"HTTP(S) proxy", "regular", none, none, "", 8080⟩
           initState
           (.osErr ⟨98, "[Errno 98] Address already in use", none⟩)).1
         (.ok ⟨[⟨"127.0.0.1", 8081⟩]⟩)).2 = .ok () :=
  ⟨(C2_lifecycle_misuse.1
      ⟨"HTTP(S) proxy", "regular", none, none, "", 8080⟩
      ⟨some ⟨[⟨"127.0.0.1", 8080⟩]⟩, [⟨"127.0.0.1", 8080⟩], none⟩
      (.ok ⟨[⟨"127.0.0.1", 8081⟩]⟩) (by decide)).1,
   (C2_lifecycle_misuse.2.1 initState none (by decide)).1,
   ((C2_lifecycle_misuse.2.2
      ⟨"HTTP(S) proxy", "regular", none, none, "", 8080⟩
      initState
      (.osErr ⟨98, "[Errno 98] Address already in use", none⟩)
      (by decide) (by decide)).2
      ⟨"HTTP(S) proxy", "regular", none, none, "", 8081⟩
      ⟨[⟨"127.0.0.1", 8081⟩]⟩).1⟩

/-- C3: when `start()` fails to bind with EADDRINUSE and the operator did
not pin a custom port, the surfaced error message is the failure message
followed by the suggestion, which contains the substring
"@(configured port + 1)" built from the mode spec; for any other bind
error the raised `OSError` keeps the original errno and filename, with the
original error text embedded in the message, and `last_exception` holds
the original error. -/
theorem C3_bind_error_surface :
    (∀ (cfg : InstanceConfig) (s : AsyncioState) (e : OSErr),
       AsyncioServerInstance.is_running s = false →
       e.errno = EADDRINUSE → cfg.custom_listen_port = none →
       cfg.custom_listen_host = none →
       (AsyncioServerInstance.start cfg s (.osErr e)).2
         = .error (.os ⟨e.errno, failMessage cfg e ++ portSuggestion cfg,
                        e.filename⟩)
       ∧ (∃ a b, failMessage cfg e ++ portSuggestion cfg
            = a ++ ("@" ++ toString (cfg.listen_port + 1)) ++ b)
       ∧ (AsyncioServerInstance.start cfg s (.osErr e)).1.last_exception
           = some (.os e))
    ∧ (∀ (cfg : InstanceConfig) (s : AsyncioState) (e : OSErr),
       AsyncioServerInstance.is_running s = false →
       ¬(e.errno = EADDRINUSE ∧ cfg.custom_listen_port = none) →
       (AsyncioServerInstance.start cfg s (.osErr e)).2
         = .error (.os ⟨e.errno, failMessage cfg e, e.filename⟩)
       ∧ (∃ a b, failMessage cfg e = a ++ e.msg ++ b)
       ∧ (AsyncioServerInstance.start cfg s (.osErr e)).1.last_exception
           = some (.os e)) := by
  constructor
  · intro cfg s e hrun he hp hh
    have hs : s._server = none := not_running_server_none s hrun
    rw [start_osErr_suggest cfg s e hs he hp hh]
    refine ⟨rfl, ?_, rfl⟩
    refine ⟨failMessage cfg e
        ++ ("\nTry specifying a different port by using `--mode "
              ++ cfg.full_spec), "`.", ?_⟩
    unfold portSuggestion
    simp [String.append_assoc]
  · intro cfg s e hrun hno
    have hs : s._server = none := not_running_server_none s hrun
    rw [start_osErr_plain cfg s e hs hno]
    refine ⟨rfl, ?_, rfl⟩
    refine ⟨cfg.log_desc ++ " failed to listen on "
        ++ (if cfg.listen_host = "" then "*" else cfg.listen_host)
        ++ ":" ++ toString cfg.listen_port ++ " with ", "", ?_⟩
    unfold failMessage
    simp [String.append_assoc]

/-- Witness for C3: an EADDRINUSE failure on default-port mode "dns" at
port 53 surfaces the suggestion for port 54, and a permission error is
surfaced with its own errno and text. -/
theorem C3_bind_error_surface_witness :
    (AsyncioServerInstance.start
       ⟨"DNS server", "dns", none, none, "", 53⟩ initState
       (.osErr ⟨98, "[Errno 98] Address already in use", none⟩)).2
      = .error (.os ⟨98,
          failMessage ⟨"DNS server", "dns", none, none, "", 53⟩
              ⟨98, "[Errno 98] Address already in use", none⟩
            ++ portSuggestion ⟨"DNS server", "dns", none, none, "", 53⟩,
          none⟩)
    ∧ (AsyncioServerInstance.start
         ⟨"DNS server", "dns", none, none, "", 53⟩ initState
         (.osErr ⟨13, "[Errno 13] Permission denied", none⟩)).2
        = .error (.os ⟨13,
            failMessage ⟨"DNS server", "dns", none, none, "", 53⟩
              ⟨13, "[Errno 13] Permission denied", none⟩, none⟩) :=
  ⟨(C3_bind_error_surface.1
      ⟨"DNS server", "dns", none, none, "", 53⟩ initState
      ⟨98, "[Errno 98] Address already in use", none⟩
      (by decide) (by decide) (by decide) (by decide)).1,
   (C3_bind_error_surface.2
      ⟨"DNS server", "dns", none, none, "", 53⟩ initState
      ⟨13, "[Errno 13] Permission denied", none⟩
      (by decide) (by decide)).1⟩

/-- C4: `stop()` on a running instance clears the server handle and
`listen_addrs` before issuing the close, so even when the close/drain
raises the instance ends stopped (`is_running` false, `listen_addrs`
empty) with `last_exception` set and the error re-raised, and a subsequent
`start()` passes the lifecycle check and succeeds whenever the bind
does. -/
theorem C4_stop_clears_before_close :
    ∀ (s : AsyncioState) (e : PyExc),
      AsyncioServerInstance.is_running s = true →
      (AsyncioServerInstance.stop s (some e)).1._server = none
      ∧ AsyncioServerInstance.is_running
          (AsyncioServerInstance.stop s (some e)).1 = false
      ∧ AsyncioServerInstance.listen_addrs
          (AsyncioServerInstance.stop s (some e)).1 = []
      ∧ (AsyncioServerInstance.stop s (some e)).1.last_exception = some e
      ∧ (AsyncioServerInstance.stop s (some e)).2 = .error (.raised e)
      ∧ (∀ (cfg : InstanceConfig) (srv : BoundServer),
           (AsyncioServerInstance.start cfg
             (AsyncioServerInstance.stop s (some e)).1 (.ok srv)).2 = .ok ()
           ∧ AsyncioServerInstance.is_running
               (AsyncioServerInstance.start cfg
                 (AsyncioServerInstance.stop s (some e)).1 (.ok srv)).1
               = true) := by
  intro s e hrun
  obtain ⟨srv, hs⟩ :=
    Option.isSome_iff_exists.mp (by simpa [AsyncioServerInstance.is_running] using hrun)
  rw [stop_close_error s srv e hs]
  refine ⟨rfl, rfl, rfl, rfl, rfl, ?_⟩
  intro cfg srv2
  rw [start_ok cfg _ srv2 rfl]
  exact ⟨rfl, rfl⟩

/-- Witness for C4: a drain error on a running DNS instance leaves a
stopped, restartable instance. -/
theorem C4_stop_clears_before_close_witness :
    (AsyncioServerInstance.stop
       ⟨some ⟨[⟨"127.0.0.1", 53⟩]⟩, [⟨"127.0.0.1", 53⟩], none⟩
       (some (.exc "drain failed"))).1._server = none
    ∧ (AsyncioServerInstance.stop
         ⟨some ⟨[⟨"127.0.0.1", 53⟩]⟩, [⟨"127.0.0.1", 53⟩], none⟩
         (some (.exc "drain failed"))).2
        = .error (.raised (.exc "drain failed")) :=
  ⟨(C4_stop_clears_before_close
      ⟨some ⟨[⟨"127.0.0.1", 53⟩]⟩, [⟨"127.0.0.1", 53⟩], none⟩
      (.exc "drain failed") (by decide)).1,
   (C4_stop_clears_before_close
      ⟨some ⟨[⟨"127.0.0.1", 53⟩]⟩, [⟨"127.0.0.1", 53⟩], none⟩
      (.exc "drain failed") (by decide)).2.2.2.2.1⟩


theorem updateConn_length (conns : Conns) (cid : ConnectionId)
    (f : HandlerState → HandlerState) :
    (updateConn conns cid f).length = conns.length := by
  induction conns with
  | nil => rfl
  | cons kv rest ih =>
    simp only [updateConn]
    split
    · simp
    · simp [ih]

theorem lookupConn_update_self (conns : Conns) (cid : ConnectionId)
    (f : HandlerState → HandlerState) (hd : HandlerState)
    (h : lookupConn conns cid = some hd) :
    lookupConn (updateConn conns cid f) cid = some (f hd) := by
  induction conns with
  | nil => simp [lookupConn] at h
  | cons kv rest ih =>
    obtain ⟨k, v⟩ := kv
    simp only [lookupConn] at h
    by_cases hk : k = cid
    · rw [if_pos hk] at h
      injection h with h2
      subst h2
      simp only [updateConn, if_pos hk, lookupConn]
    · rw [if_neg hk] at h
      simp only [updateConn, if_neg hk, lookupConn]
      exact ih h

theorem handle_classified_none (impl : UdpImpl) (conns : Conns)
    (logs : List LogEntry) (data : Bytes) (r l : Address) :
    handle_udp_datagram_classified impl conns (none, logs) data r l
      = (conns, logs.map .log) := rfl

theorem handle_classified_hit (impl : UdpImpl) (conns : Conns)
    (cid : ConnectionId) (logs : List LogEntry) (data : Bytes)
    (r l : Address) (hd : HandlerState)
    (h : lookupConn conns cid = some hd) :
    handle_udp_datagram_classified impl conns (some cid, logs) data r l
      = (updateConn conns cid
           (fun hh => { hh with reader := hh.reader ++ [(data, r)] }),
         logs.map .log ++ [.feed cid data r]) := by
  unfold handle_udp_datagram_classified
  dsimp only
  rw [h]

theorem handle_classified_miss (impl : UdpImpl) (conns : Conns)
    (cid : ConnectionId) (logs : List LogEntry) (data : Bytes)
    (r l : Address) (h : lookupConn conns cid = none) :
    handle_udp_datagram_classified impl conns (some cid, logs) data r l
      = ((cid,
          { client_transport_protocol := "udp", connection_timeout := 20,
            server_address := (impl.make_top_layer
              (if impl.is_transparent then some l else none)).2,
            server_transport_protocol := "udp",
            layer := some (impl.make_top_layer
              (if impl.is_transparent then some l else none)).1,
            reader := [(data, r)] }) :: conns,
         logs.map .log
           ++ [.insertConn cid, .spawnTask cid, .feed cid data r]) := by
  unfold handle_udp_datagram_classified
  dsimp only
  rw [h]
  cases htr : impl.is_transparent <;>
    simp [updateConn, freshHandler, htr]

theorem dns_make_connection_id_long (b0 b1 : Nat) (rest : Bytes)
    (peer laddr : Address) :
    DnsInstance.make_connection_id (b0 :: b1 :: rest) peer laddr
      = (some [.str "udp", .intTuple [b0 * 256 + b1], .addr peer,
               .addr laddr], []) := rfl

theorem dns_make_connection_id_short (data : Bytes) (peer laddr : Address)
    (h : data.length < 2) :
    DnsInstance.make_connection_id data peer laddr
      = (none, [⟨"info", "Invalid DNS datagram received from "
                   ++ format_address peer ++ "."⟩]) := by
  match data with
  | [] => rfl
  | [b] => rfl
  | b0 :: b1 :: rest => simp at h; omega


/-- C5 (counterexample): the claim says a 12-byte DNS datagram with
transaction id 0x1234 is classified under the key
("udp", 0x1234, peer, local) — with the transaction id as a bare integer.
The code places the tuple returned by `struct.unpack_from` in the key, so
the computed key differs from the claimed one at its second component. -/
theorem C5_connection_id_shape_counterexample :
    (DnsInstance.make_connection_id
        [0x12, 0x34, 0x01, 0x00, 0x00, 0x01, 0x00, 0x00, 0x00, 0x00, 0x00,
         0x00]
        ⟨"192.0.2.1", 54321⟩ ⟨"127.0.0.1", 53⟩).1
      ≠ some [IdComponent.str "udp", IdComponent.int 0x1234,
              IdComponent.addr ⟨"192.0.2.1", 54321⟩,
              IdComponent.addr ⟨"127.0.0.1", 53⟩] := by
  decide

/-- C5 (amended): in DNS mode the connection id computed from a datagram
of at least 2 bytes is ("udp", (tid,), peer, local) where tid is the first
two bytes parsed as a big-endian 16-bit integer and (tid,) is the
one-element tuple returned by `struct.unpack_from`; consequently two
datagrams with the same (peer, local) but distinct transaction ids yield
distinct ids and create two handlers, while two datagrams with the same
transaction id yield the same id and are handled by the one handler whose
reader receives both datagrams; a 12-byte datagram with transaction id
0x1234 produces exactly the entry keyed ("udp", (0x1234,), peer, local). -/
theorem C5_dns_demux_amended :
    (∀ (b0 b1 : Nat) (rest : Bytes) (peer laddr : Address),
       (DnsInstance.make_connection_id (b0 :: b1 :: rest) peer laddr).1
         = some [IdComponent.str "udp", IdComponent.intTuple [b0 * 256 + b1],
                 IdComponent.addr peer, IdComponent.addr laddr])
    ∧ (∀ (md : String) (peer laddr : Address) (a0 a1 b0 b1 : Nat)
         (r1 r2 : Bytes),
        a0 * 256 + a1 ≠ b0 * 256 + b1 →
        (DnsInstance.make_connection_id (a0 :: a1 :: r1) peer laddr).1
          ≠ (DnsInstance.make_connection_id (b0 :: b1 :: r2) peer laddr).1
        ∧ ((UdpServerInstance.handle_udp_datagram (dnsImpl md)
             (UdpServerInstance.handle_udp_datagram (dnsImpl md) []
               (a0 :: a1 :: r1) peer laddr).1
             (b0 :: b1 :: r2) peer laddr).1).length = 2)
    ∧ (∀ (md : String) (peer laddr : Address) (a0 a1 : Nat) (r1 r2 : Bytes),
        (DnsInstance.make_connection_id (a0 :: a1 :: r1) peer laddr).1
          = (DnsInstance.make_connection_id (a0 :: a1 :: r2) peer laddr).1
        ∧ ((UdpServerInstance.handle_udp_datagram (dnsImpl md)
             (UdpServerInstance.handle_udp_datagram (dnsImpl md) []
               (a0 :: a1 :: r1) peer laddr).1
             (a0 :: a1 :: r2) peer laddr).1).length = 1
        ∧ (∃ hd, lookupConn
             (UdpServerInstance.handle_udp_datagram (dnsImpl md)
               (UdpServerInstance.handle_udp_datagram (dnsImpl md) []
                 (a0 :: a1 :: r1) peer laddr).1
               (a0 :: a1 :: r2) peer laddr).1
             [IdComponent.str "udp", IdComponent.intTuple [a0 * 256 + a1],
              IdComponent.addr peer, IdComponent.addr laddr]
             = some hd
           ∧ hd.reader = [(a0 :: a1 :: r1, peer), (a0 :: a1 :: r2, peer)]))
    ∧ ((UdpServerInstance.handle_udp_datagram (dnsImpl "") []
          [0x12, 0x34, 0x01, 0x00, 0x00, 0x01, 0x00, 0x00, 0x00, 0x00, 0x00,
           0x00]
          ⟨"192.0.2.1", 54321⟩ ⟨"127.0.0.1", 53⟩).1.map Prod.fst
        = [[IdComponent.str "udp", IdComponent.intTuple [0x1234],
            IdComponent.addr ⟨"192.0.2.1", 54321⟩,
            IdComponent.addr ⟨"127.0.0.1", 53⟩]]) := by
  refine ⟨?_, ?_, ?_, ?_⟩
  · intro b0 b1 rest peer laddr
    rw [dns_make_connection_id_long]
  · intro md peer laddr a0 a1 b0 b1 r1 r2 h
    constructor
    · rw [dns_make_connection_id_long, dns_make_connection_id_long]
      simpa using h
    · simp [UdpServerInstance.handle_udp_datagram, dnsImpl,
            DnsInstance.make_connection_id, unpack_from_beH,
            handle_udp_datagram_classified, lookupConn, updateConn,
            freshHandler, DnsInstance.is_transparent_consulted,
            DnsInstance.is_transparent_attr, PyAttr.truthy,
            DnsInstance.make_top_layer, h]
  · intro md peer laddr a0 a1 r1 r2
    refine ⟨by rw [dns_make_connection_id_long, dns_make_connection_id_long],
            ?_, ?_⟩
    · simp [UdpServerInstance.handle_udp_datagram, dnsImpl,
            DnsInstance.make_connection_id, unpack_from_beH,
            handle_udp_datagram_classified, lookupConn, updateConn,
            freshHandler, DnsInstance.is_transparent_consulted,
            DnsInstance.is_transparent_attr, PyAttr.truthy,
            DnsInstance.make_top_layer]
    · simp [UdpServerInstance.handle_udp_datagram, dnsImpl,
            DnsInstance.make_connection_id, unpack_from_beH,
            handle_udp_datagram_classified, lookupConn, updateConn,
            freshHandler, DnsInstance.is_transparent_consulted,
            DnsInstance.is_transparent_attr, PyAttr.truthy,
            DnsInstance.make_top_layer]
  · rfl

/-- Witness for C5 (amended) at concrete datagrams: transaction ids 0x1234
and 0x5678 on the same (peer, local) create two entries; a repeat of
0x1234 is handled by the existing handler. -/
theorem C5_dns_demux_amended_witness :
    ((UdpServerInstance.handle_udp_datagram (dnsImpl "")
        (UdpServerInstance.handle_udp_datagram (dnsImpl "") []
          [0x12, 0x34, 0x01, 0x00, 0x00, 0x01, 0x00, 0x00, 0x00, 0x00, 0x00,
           0x00]
          ⟨"192.0.2.1", 54321⟩ ⟨"127.0.0.1", 53⟩).1
        [0x56, 0x78, 0x01, 0x00, 0x00, 0x01, 0x00, 0x00, 0x00, 0x00, 0x00,
         0x00]
        ⟨"192.0.2.1", 54321⟩ ⟨"127.0.0.1", 53⟩).1).length = 2
    ∧ ((UdpServerInstance.handle_udp_datagram (dnsImpl "")
        (UdpServerInstance.handle_udp_datagram (dnsImpl "") []
          [0x12, 0x34, 0x01, 0x00, 0x00, 0x01, 0x00, 0x00, 0x00, 0x00, 0x00,
           0x00]
          ⟨"192.0.2.1", 54321⟩ ⟨"127.0.0.1", 53⟩).1
        [0x12, 0x34, 0x00, 0x00, 0x00, 0x00, 0x00, 0x00, 0x00, 0x00, 0x00,
         0x00]
        ⟨"192.0.2.1", 54321⟩ ⟨"127.0.0.1", 53⟩).1).length = 1 :=
  ⟨((C5_dns_demux_amended.2.1 "" ⟨"192.0.2.1", 54321⟩ ⟨"127.0.0.1", 53⟩
      0x12 0x34 0x56 0x78
      [0x01, 0x00, 0x00, 0x01, 0x00, 0x00, 0x00, 0x00, 0x00, 0x00]
      [0x01, 0x00, 0x00, 0x01, 0x00, 0x00, 0x00, 0x00, 0x00, 0x00]
      (by decide)).2),
   ((C5_dns_demux_amended.2.2.1 "" ⟨"192.0.2.1", 54321⟩ ⟨"127.0.0.1", 53⟩
      0x12 0x34
      [0x01, 0x00, 0x00, 0x01, 0x00, 0x00, 0x00, 0x00, 0x00, 0x00]
      [0x00, 0x00, 0x00, 0x00, 0x00, 0x00, 0x00, 0x00, 0x00, 0x00]).2.1)⟩


/-- C6: as written, the source's datagram handler raises TypeError for
every datagram (the classifier is called with an extra `transport`
argument), so even the malformed-datagram path is unreachable; with the
classifier call resolved as the spec prescribes, a DNS-mode datagram
shorter than 2 bytes yields no connection id, emits exactly one
info-level log, leaves `manager.connections` untouched, creates no
handler and spawns no task, and propagates no error. -/
theorem C6_short_datagram_dropped :
    (∀ (impl : UdpImpl) (transport : Nat) (conns : Conns) (data : Bytes)
       (remote_addr local_addr : Address),
       UdpServerInstance.handle_udp_datagram_as_written impl transport conns
         data remote_addr local_addr
         = .error "TypeError: make_connection_id() takes 4 positional arguments but 5 were given")
    ∧ (∀ (md : String) (conns : Conns) (data : Bytes)
         (remote_addr local_addr : Address),
        data.length < 2 →
        (DnsInstance.make_connection_id data remote_addr local_addr).1 = none
        ∧ (DnsInstance.make_connection_id data remote_addr local_addr).2
            = [⟨"info", "Invalid DNS datagram received from "
                  ++ format_address remote_addr ++ "."⟩]
        ∧ (UdpServerInstance.handle_udp_datagram (dnsImpl md) conns data
             remote_addr local_addr).1 = conns
        ∧ (UdpServerInstance.handle_udp_datagram (dnsImpl md) conns data
             remote_addr local_addr).2
            = [.log ⟨"info", "Invalid DNS datagram received from "
                       ++ format_address remote_addr ++ "."⟩]) := by
  constructor
  · intro impl transport conns data remote_addr local_addr
    rfl
  · intro md conns data remote_addr local_addr hlen
    have hcid := dns_make_connection_id_short data remote_addr local_addr hlen
    refine ⟨by rw [hcid], by rw [hcid], ?_, ?_⟩
    · show (handle_udp_datagram_classified (dnsImpl md) conns
        (DnsInstance.make_connection_id data remote_addr local_addr)
        data remote_addr local_addr).1 = conns
      rw [hcid, handle_classified_none]
    · show (handle_udp_datagram_classified (dnsImpl md) conns
        (DnsInstance.make_connection_id data remote_addr local_addr)
        data remote_addr local_addr).2
        = [.log ⟨"info", "Invalid DNS datagram received from "
             ++ format_address remote_addr ++ "."⟩]
      rw [hcid, handle_classified_none]
      rfl

/-- Witness for C6 at a one-byte datagram. -/
theorem C6_short_datagram_dropped_witness :
    ([0x00] : Bytes).length < 2
    ∧ (UdpServerInstance.handle_udp_datagram (dnsImpl "") [] [0x00]
         ⟨"192.0.2.1", 54321⟩ ⟨"127.0.0.1", 53⟩).1 = []
    ∧ (DnsInstance.make_connection_id [0x00]
         ⟨"192.0.2.1", 54321⟩ ⟨"127.0.0.1", 53⟩).1 = none :=
  ⟨by decide,
   (C6_short_datagram_dropped.2 "" [] [0x00]
      ⟨"192.0.2.1", 54321⟩ ⟨"127.0.0.1", 53⟩ (by decide)).2.2.1,
   (C6_short_datagram_dropped.2 "" [] [0x00]
      ⟨"192.0.2.1", 54321⟩ ⟨"127.0.0.1", 53⟩ (by decide)).1⟩

/-- C7: for every datagram whose connection id is not yet in
`manager.connections` (and with the classifier call resolved as the spec
prescribes), the effect trace of the datagram handler places the mapping
insert of that id strictly before the task spawn — no spawn effect
precedes the insert — and a second datagram for the same id processed
before the spawned task runs finds the existing handler: the mapping
still contains the id, no new entry is added, and its trace contains no
insert and no spawn. -/
theorem C7_preinsert_before_spawn :
    ∀ (impl : UdpImpl) (conns : Conns) (data : Bytes) (r l : Address)
      (cid : ConnectionId) (logs : List LogEntry),
      impl.make_connection_id data r l = (some cid, logs) →
      lookupConn conns cid = none →
      (∃ pre suf,
         (UdpServerInstance.handle_udp_datagram impl conns data r l).2
           = pre ++ (UdpEffect.insertConn cid :: UdpEffect.spawnTask cid :: suf)
         ∧ ∀ e ∈ pre, ∀ c, e ≠ UdpEffect.spawnTask c)
      ∧ (∀ (data2 : Bytes) (r2 l2 : Address) (logs2 : List LogEntry),
          impl.make_connection_id data2 r2 l2 = (some cid, logs2) →
          (lookupConn
             (UdpServerInstance.handle_udp_datagram impl conns data r l).1
             cid).isSome = true
          ∧ ((UdpServerInstance.handle_udp_datagram impl
               (UdpServerInstance.handle_udp_datagram impl conns data r l).1
               data2 r2 l2).1).length
              = ((UdpServerInstance.handle_udp_datagram impl conns data r l).1).length
          ∧ (∀ e ∈ (UdpServerInstance.handle_udp_datagram impl
               (UdpServerInstance.handle_udp_datagram impl conns data r l).1
               data2 r2 l2).2, ∀ c,
               e ≠ UdpEffect.insertConn c ∧ e ≠ UdpEffect.spawnTask c)) := by
  intro impl conns data r l cid logs hcls hmiss
  have h1 : UdpServerInstance.handle_udp_datagram impl conns data r l
      = handle_udp_datagram_classified impl conns (some cid, logs) data r l := by
    unfold UdpServerInstance.handle_udp_datagram
    rw [hcls]
  rw [h1, handle_classified_miss impl conns cid logs data r l hmiss]
  constructor
  · refine ⟨logs.map .log, [UdpEffect.feed cid data r], by simp, ?_⟩
    intro e he c
    obtain ⟨le, -, rfl⟩ := List.mem_map.mp he
    simp
  · intro data2 r2 l2 logs2 hcls2
    have hlook : lookupConn
        ((cid, { client_transport_protocol := "udp", connection_timeout := 20,
                 server_address := (impl.make_top_layer
                   (if impl.is_transparent then some l else none)).2,
                 server_transport_protocol := "udp",
                 layer := some (impl.make_top_layer
                   (if impl.is_transparent then some l else none)).1,
                 reader := [(data, r)] }) :: conns) cid
        = some { client_transport_protocol := "udp", connection_timeout := 20,
                 server_address := (impl.make_top_layer
                   (if impl.is_transparent then some l else none)).2,
                 server_transport_protocol := "udp",
                 layer := some (impl.make_top_layer
                   (if impl.is_transparent then some l else none)).1,
                 reader := [(data, r)] } := by
      simp [lookupConn]
    have h2 : UdpServerInstance.handle_udp_datagram impl
        ((cid, { client_transport_protocol := "udp", connection_timeout := 20,
                 server_address := (impl.make_top_layer
                   (if impl.is_transparent then some l else none)).2,
                 server_transport_protocol := "udp",
                 layer := some (impl.make_top_layer
                   (if impl.is_transparent then some l else none)).1,
                 reader := [(data, r)] }) :: conns) data2 r2 l2
      = handle_udp_datagram_classified impl
          ((cid, { client_transport_protocol := "udp", connection_timeout := 20,
                   server_address := (impl.make_top_layer
                     (if impl.is_transparent then some l else none)).2,
                   server_transport_protocol := "udp",
                   layer := some (impl.make_top_layer
                     (if impl.is_transparent then some l else none)).1,
                   reader := [(data, r)] }) :: conns)
          (some cid, logs2) data2 r2 l2 := by
      unfold UdpServerInstance.handle_udp_datagram
      rw [hcls2]
    rw [h2, handle_classified_hit _ _ _ _ _ _ _ _ hlook]
    refine ⟨by rw [hlook]; rfl, by rw [updateConn_length], ?_⟩
    intro e he c
    rcases List.mem_append.mp he with hm | hm
    · obtain ⟨le, -, rfl⟩ := List.mem_map.mp hm
      simp
    · rcases List.mem_singleton.mp hm with rfl
      simp

/-- Witness for C7 at a concrete DNS datagram on an empty mapping. -/
theorem C7_preinsert_before_spawn_witness :
    (dnsImpl "").make_connection_id
        [0x12, 0x34, 0x01, 0x00] ⟨"192.0.2.1", 54321⟩ ⟨"127.0.0.1", 53⟩
      = (some [IdComponent.str "udp", IdComponent.intTuple [0x1234],
               IdComponent.addr ⟨"192.0.2.1", 54321⟩,
               IdComponent.addr ⟨"127.0.0.1", 53⟩], [])
    ∧ (∃ pre suf,
        (UdpServerInstance.handle_udp_datagram (dnsImpl "") []
            [0x12, 0x34, 0x01, 0x00]
            ⟨"192.0.2.1", 54321⟩ ⟨"127.0.0.1", 53⟩).2
          = pre ++ (UdpEffect.insertConn
                [IdComponent.str "udp", IdComponent.intTuple [0x1234],
                 IdComponent.addr ⟨"192.0.2.1", 54321⟩,
                 IdComponent.addr ⟨"127.0.0.1", 53⟩]
              :: UdpEffect.spawnTask
                [IdComponent.str "udp", IdComponent.intTuple [0x1234],
                 IdComponent.addr ⟨"192.0.2.1", 54321⟩,
                 IdComponent.addr ⟨"127.0.0.1", 53⟩] :: suf)
        ∧ ∀ e ∈ pre, ∀ c, e ≠ UdpEffect.spawnTask c) :=
  ⟨by decide,
   (C7_preinsert_before_spawn (dnsImpl "") [] [0x12, 0x34, 0x01, 0x00]
      ⟨"192.0.2.1", 54321⟩ ⟨"127.0.0.1", 53⟩
      [IdComponent.str "udp", IdComponent.intTuple [0x1234],
       IdComponent.addr ⟨"192.0.2.1", 54321⟩,
       IdComponent.addr ⟨"127.0.0.1", 53⟩] []
      (by decide) (by decide)).1⟩


/-- C8: constructing `UdpInstance(mode, manager)` as written fails — the
inner call `ServerInstance.make(mode.inner_mode)` omits the required
manager argument and raises TypeError, so the claimed composition never
happens; with the spec's resolution (thread the same manager through),
construction succeeds, the inner listener is built over the same manager,
`UdpInstance.make_top_layer` is pure delegation to the inner listener's
factory, and the inherited `listen` binds a UDP socket, never the TCP
socket of the inner listener's `listen`. -/
theorem C8_udp_instance_construction :
    (UdpInstance.init_as_written (.reverse "tcp://example.com:9") 7
       = .error "TypeError: make() missing 1 required positional argument: manager")
    ∧ (∀ (inner : ProxyMode) (manager : Nat),
        UdpInstance.init_fixed inner manager
          = .ok { mode := inner, manager := manager,
                  inner_server := ServerInstance.make inner manager }
        ∧ (ServerInstance.make inner manager).manager = manager)
    ∧ (∀ (f : Option Address → LayerKind × Option Address)
         (sa : Option Address),
        UdpInstance.make_top_layer f sa = f sa)
    ∧ UdpServerInstance.listen_socket_kind ≠ TcpServerInstance.listen_socket_kind := by
  refine ⟨rfl, ?_, ?_, by decide⟩
  · intro inner manager
    exact ⟨rfl, rfl⟩
  · intro f sa
    rfl

/-- C9: `DnsInstance.is_transparent` and `UdpInstance.is_transparent` /
`log_desc` are plain methods, not properties, so the attribute reads in
the listen and datagram paths see truthy bound-method objects: the value
consulted for a DNS instance is `true` even though the method body yields
`false` for mode data "resolve-local" (and the body yields `true` only for
"transparent"); `UdpInstance`'s attributes likewise surface bound methods
rather than the boolean / the description string, unlike the base class's
genuine `is_transparent` property, which is `false`. -/
theorem C9_method_vs_property :
    DnsInstance.is_transparent_consulted = true
    ∧ DnsInstance.is_transparent_body "resolve-local" = false
    ∧ DnsInstance.is_transparent_body "transparent" = true
    ∧ DnsInstance.is_transparent_attr = PyAttr.boundMethod
    ∧ UdpInstance.is_transparent_attr = PyAttr.boundMethod
    ∧ UdpInstance.log_desc_attr = PyAttr.boundMethod
    ∧ DnsInstance.log_desc_attr = PyAttr.value "DNS server"
    ∧ AsyncioServerInstance.is_transparent_attr.truthy = false := by
  refine ⟨rfl, by decide, by decide, rfl, rfl, rfl, rfl, rfl⟩

end ModeServers

namespace Url

/-- C10: for every URL accepted by `url.parse`, the returned path starts
with "/" (the raw reassembled path when it already starts with "/", and
"/" prepended to it otherwise), and when the URL specifies no explicit
port the returned port is 443 for scheme https and 80 otherwise; a URL
with no hostname, an invalid host, or an out-of-range port is rejected
with a ValueError. -/
theorem C10_url_parse :
    (∀ (p : UrlParseResult) (sch host : Bytes) (pt : Nat) (fp : Bytes),
       parse p = .ok (sch, host, pt, fp) →
       fp.take 1 = [47]
       ∧ fp = (if (urlunparse_relative p.path p.params p.query
                     p.fragment).take 1 = [47]
               then urlunparse_relative p.path p.params p.query p.fragment
               else 47 :: urlunparse_relative p.path p.params p.query
                      p.fragment)
       ∧ (p.port = none → pt = (if p.scheme = httpsBytes then 443 else 80)))
    ∧ (∀ p : UrlParseResult, (p.hostname = none ∨ p.hostname = some []) →
        ∃ m, parse p = .error m)
    ∧ (∀ (p : UrlParseResult) (host : Bytes), p.hostname = some host →
        is_valid_host host = false → ∃ m, parse p = .error m)
    ∧ (∀ (p : UrlParseResult) (n : Nat), p.port = some n → 65535 < n →
        ∃ m, parse p = .error m) := by
  refine ⟨?_, ?_, ?_, ?_⟩
  · intro p sch host pt fp hp
    unfold parse at hp
    cases hh : p.hostname with
    | none => rw [hh] at hp; exact absurd hp (by simp)
    | some h0 =>
      rw [hh] at hp
      dsimp only at hp
      by_cases hempty : h0 = []
      · rw [if_pos hempty] at hp
        exact absurd hp (by simp)
      · rw [if_neg hempty] at hp
        by_cases hv : is_valid_host h0
        · rw [if_neg (by simp [hv])] at hp
          by_cases hvp : is_valid_port
              (if p.port.getD 0 = 0
               then (if p.scheme = httpsBytes then 443 else 80)
               else p.port.getD 0)
          · rw [if_neg (by simp [hvp])] at hp
            simp only [Except.ok.injEq, Prod.mk.injEq] at hp
            obtain ⟨-, -, hpt, hfp⟩ := hp
            refine ⟨?_, hfp.symm, ?_⟩
            · rw [← hfp]
              split
              · assumption
              · rfl
            · intro hport
              rw [← hpt]
              simp [hport]
          · rw [if_pos (by simp [hvp])] at hp
            exact absurd hp (by simp)
        · rw [if_pos (by simp [hv])] at hp
          exact absurd hp (by simp)
  · intro p hp
    rcases hp with hp | hp
    · exact ⟨"No hostname given", by unfold parse; rw [hp]⟩
    · refine ⟨"No hostname given", ?_⟩
      unfold parse
      rw [hp]
      dsimp only
      rw [if_pos rfl]
  · intro p host hh hv
    unfold parse
    rw [hh]
    dsimp only
    by_cases hempty : host = []
    · rw [if_pos hempty]
      exact ⟨"No hostname given", rfl⟩
    · rw [if_neg hempty]
      refine ⟨"Invalid Host", ?_⟩
      rw [if_pos (by simp [hv])]
  · intro p n hn hbig
    unfold parse
    cases hh : p.hostname with
    | none => exact ⟨"No hostname given", rfl⟩
    | some host =>
      dsimp only
      by_cases hempty : host = []
      · rw [if_pos hempty]
        exact ⟨"No hostname given", rfl⟩
      · rw [if_neg hempty]
        by_cases hv : is_valid_host host
        · rw [if_neg (by simp [hv])]
          refine ⟨"Invalid Port", ?_⟩
          simp only [hn, Option.getD_some]
          rw [if_neg (show ¬(n = 0) by omega)]
          rw [if_pos (show ¬(is_valid_port n = true) by
                simp only [is_valid_port, decide_eq_true_eq]
                omega)]
        · rw [if_pos (by simp [hv])]
          exact ⟨"Invalid Host", rfl⟩

/-- Witness for C10: a parse of https://ex/a succeeds with port 443 and
path "/a"; a URL without hostname, with a null byte in the host, and
with port 70000 are each rejected. -/
theorem C10_url_parse_witness :
    parse ⟨[104, 116, 116, 112, 115], some [101, 120], none, [97], [], [], []⟩
      = .ok ([104, 116, 116, 112, 115], [101, 120], 443, [47, 97])
    ∧ ([47, 97] : Bytes).take 1 = [47]
    ∧ (∃ m, parse ⟨[104, 116, 116, 112], none, none, [], [], [], []⟩
        = .error m)
    ∧ (∃ m, parse ⟨[104, 116, 116, 112], some [101, 0], none, [], [], [], []⟩
        = .error m)
    ∧ (∃ m, parse ⟨[104, 116, 116, 112], some [101, 120], some 70000, [], [],
          [], []⟩ = .error m) :=
  ⟨by decide,
   (C10_url_parse.1
      ⟨[104, 116, 116, 112, 115], some [101, 120], none, [97], [], [], []⟩
      [104, 116, 116, 112, 115] [101, 120] 443 [47, 97] (by decide)).1,
   C10_url_parse.2.1 ⟨[104, 116, 116, 112], none, none, [], [], [], []⟩
     (Or.inl rfl),
   C10_url_parse.2.2.1 ⟨[104, 116, 116, 112], some [101, 0], none, [], [],
       [], []⟩ [101, 0] rfl (by decide),
   C10_url_parse.2.2.2 ⟨[104, 116, 116, 112], some [101, 120], some 70000,
       [], [], [], []⟩ 70000 rfl (by decide)⟩

end Url
